import Mathlib

/-!
Verification development for the statbelmail period-normalization and
aggregation pipeline.  The definitions below are a shallow embedding of
`src/date_utils.py` and of the data-preparation steps of
`src/building_permits_report.py`: pandas DataFrames become association-list
tables (or typed row lists where the schema is fixed), Python exceptions
become `Except` values, and the pandas primitives used by the code
(`apply`, `groupby`+`sum`, `pivot`, `rolling(...).mean()`, `sort_values`,
boolean-mask filtering) are spelled out as list functions with the same
semantics on the inputs the pipeline feeds them.
-/

namespace Statbel

/-- A table cell: the pandas values handled by the pipeline — NaN/None,
integers, strings, and first-of-month timestamps (year, month, day). -/
inductive Cell where
  | null : Cell
  | int : Int → Cell
  | str : String → Cell
  | date : Int → Nat → Nat → Cell
deriving DecidableEq, Repr

/-- A DataFrame row: association list from column name to cell. -/
abbrev Row := List (String × Cell)

/-- A DataFrame: column list plus rows. -/
structure Table where
  columns : List String
  rows : List Row
deriving DecidableEq, Repr

/-- Reading a cell from a row; an absent key behaves as NaN. -/
def getCell (r : Row) (c : String) : Cell := (r.lookup c).getD Cell.null

/-- Error taxonomy of the pipeline.  The Python code raises `ValueError`
with distinct messages ("Invalid month name", "Unknown Dutch month name",
"... column not found", "Unknown period_type/format_type") and pandas
raises on duplicate pivot index entries; each message family is one
constructor here. -/
inductive DateErr where
  | invalidInput : DateErr
  | unknownMonth : String → DateErr
  | missingColumn : String → DateErr
  | unknownPeriodType : String → DateErr
  | duplicatePivotIndex : DateErr
deriving DecidableEq, Repr

deriving instance DecidableEq for Except

/-- DUTCH_MONTHS from date_utils.py lines 15-28: the month vocabulary. -/
def DUTCH_MONTHS : List (String × Nat) :=
  [("januari", 1), ("jan", 1),
   ("februari", 2), ("feb", 2),
   ("maart", 3), ("mrt", 3),
   ("april", 4), ("apr", 4),
   ("mei", 5),
   ("juni", 6), ("jun", 6),
   ("juli", 7), ("jul", 7),
   ("augustus", 8), ("aug", 8),
   ("september", 9), ("sep", 9),
   ("oktober", 10), ("okt", 10),
   ("november", 11), ("nov", 11),
   ("december", 12), ("dec", 12)]

/-- The whitespace set stripped by Python str.strip. -/
def pyIsSpace (c : Char) : Bool :=
  c == ' ' || c == '\t' || c == '\n' || c == '\r' || c == '\x0b' || c == '\x0c'

/-- Python str.lower on the character sequence. -/
def pyLower (s : String) : String :=
  String.mk (s.data.map Char.toLower)

/-- Python str.strip: drop leading and trailing whitespace. -/
def pyStrip (s : String) : String :=
  String.mk (((s.data.dropWhile pyIsSpace).reverse.dropWhile pyIsSpace).reverse)

/-- dutch_month_to_number (date_utils.py lines 47-68): NaN or non-string
input is invalid; otherwise the lowered, stripped label is looked up in
DUTCH_MONTHS, and an unmatched label raises with the original label. -/
def dutch_month_to_number : Cell → Except DateErr Nat
  | Cell.str s =>
      let month_clean := pyStrip (pyLower s)
      match DUTCH_MONTHS.lookup month_clean with
      | some n => Except.ok n
      | none => Except.error (DateErr.unknownMonth s)
  | _ => Except.error DateErr.invalidInput

/-- df[month_col].apply(dutch_month_to_number): the traversal stops at the
first row whose month cell fails to convert. -/
def applyMonths : List Row → String → Except DateErr (List Nat)
  | [], _ => Except.ok []
  | r :: rs, mc =>
    match dutch_month_to_number (getCell r mc) with
    | Except.error e => Except.error e
    | Except.ok m =>
      match applyMonths rs mc with
      | Except.error e => Except.error e
      | Except.ok ms => Except.ok (m :: ms)

/-- Year cells as year values: the pipeline stores years as integers, and
pd.to_datetime rejects the string built from a non-year cell. -/
def applyYears : List Row → String → Except DateErr (List Int)
  | [], _ => Except.ok []
  | r :: rs, yc =>
    match getCell r yc with
    | Cell.int y =>
      match applyYears rs yc with
      | Except.error e => Except.error e
      | Except.ok ys => Except.ok (y :: ys)
    | _ => Except.error DateErr.invalidInput

/-- create_date_from_columns (date_utils.py lines 71-111): check the year
column, then the month column, convert every month label, then assemble
first-of-month dates from the year column. -/
def create_date_from_columns (df : Table) (year_col month_col : String)
    (day : Nat) : Except DateErr (List Cell) :=
  if year_col ∉ df.columns then Except.error (DateErr.missingColumn year_col)
  else if month_col ∉ df.columns then Except.error (DateErr.missingColumn month_col)
  else
    match applyMonths df.rows month_col with
    | Except.error e => Except.error e
    | Except.ok months =>
      match applyYears df.rows year_col with
      | Except.error e => Except.error e
      | Except.ok years =>
        Except.ok (List.zipWith (fun y m => Cell.date y m day) years months)

/-- Column assignment df[name] = vals on one row: replace the value when
the column exists, append it otherwise. -/
def setCol (r : Row) (name : String) (v : Cell) : Row :=
  if (r.lookup name).isSome then
    r.map (fun p => if p.1 = name then (name, v) else p)
  else r ++ [(name, v)]

/-- Column assignment df[name] = vals on a copied table. -/
def addColumn (df : Table) (name : String) (vals : List Cell) : Table :=
  { columns := if name ∈ df.columns then df.columns else df.columns ++ [name],
    rows := List.zipWith (fun r v => setCol r name v) df.rows vals }

/-- add_date_column (date_utils.py lines 114-134): copy the frame and
assign the computed date series to a new column. -/
def add_date_column (df : Table) (year_col month_col date_col_name : String)
    (day : Nat) : Except DateErr Table :=
  match create_date_from_columns df year_col month_col day with
  | Except.error e => Except.error e
  | Except.ok dates => Except.ok (addColumn df date_col_name dates)

/-- astype(str) on a year cell. -/
def yearStr : Cell → String
  | Cell.int y => toString y
  | Cell.str s => s
  | Cell.null => "nan"
  | Cell.date y _ _ => toString y

/-- str.zfill(w): left-pad with zeros to width w. -/
def zfill (w : Nat) (s : String) : String :=
  String.mk (List.replicate (w - s.length) '0') ++ s

/-- The quarter computation (month_num - 1) // 3 + 1 from date_utils.py
lines 209 and 266, with Python floor division. -/
def quarter_from_month_num (m : Int) : Int := (m - 1).fdiv 3 + 1

/-- create_period_column (date_utils.py lines 173-213): year, month
(YYYY-MM, zero-padded) or quarter (YYYY-QN) period strings. -/
def create_period_column (df : Table) (year_col month_col period_type : String) :
    Except DateErr (List String) :=
  if period_type = "year" then
    Except.ok (df.rows.map (fun r => yearStr (getCell r year_col)))
  else if period_type = "month" then
    match applyMonths df.rows month_col with
    | Except.error e => Except.error e
    | Except.ok months =>
      Except.ok (List.zipWith
        (fun r m => yearStr (getCell r year_col) ++ "-" ++ zfill 2 (toString m))
        df.rows months)
  else if period_type = "quarter" then
    match applyMonths df.rows month_col with
    | Except.error e => Except.error e
    | Except.ok months =>
      Except.ok (List.zipWith
        (fun r m => yearStr (getCell r year_col) ++ "-Q" ++
          toString (quarter_from_month_num (Int.ofNat m)))
        df.rows months)
  else Except.error (DateErr.unknownPeriodType period_type)

/-- get_quarter_from_month (date_utils.py lines 255-267). -/
def get_quarter_from_month (month_name : Cell) : Except DateErr String :=
  match dutch_month_to_number month_name with
  | Except.error e => Except.error e
  | Except.ok m =>
    Except.ok ("Q" ++ toString (quarter_from_month_num (Int.ofNat m)))

/-- Series comparison df[year_col] >= k on one cell. -/
def cellIntGe (c : Cell) (k : Int) : Bool :=
  match c with
  | Cell.int n => k ≤ n
  | _ => false

/-- Series comparison df[year_col] <= k on one cell. -/
def cellIntLe (c : Cell) (k : Int) : Bool :=
  match c with
  | Cell.int n => n ≤ k
  | _ => false

/-- Series membership df[month_col].isin(months) on one cell: exact,
case-sensitive string equality. -/
def cellIsIn (c : Cell) (ms : List String) : Bool :=
  match c with
  | Cell.str s => ms.contains s
  | _ => false

/-- filter_by_period (date_utils.py lines 216-252): the three optional
masks applied one after the other to a copy of the table. -/
def filter_by_period (df : Table) (year_col month_col : String)
    (start_year end_year : Option Int) (months : Option (List String)) : Table :=
  let d1 := match start_year with
    | some y =>
      { columns := df.columns,
        rows := df.rows.filter (fun r => cellIntGe (getCell r year_col) y) }
    | none => df
  let d2 := match end_year with
    | some y =>
      { columns := d1.columns,
        rows := d1.rows.filter (fun r => cellIntLe (getCell r year_col) y) }
    | none => d1
  match months with
  | some ms =>
    { columns := d2.columns,
      rows := d2.rows.filter (fun r => cellIsIn (getCell r month_col) ms) }
  | none => d2

/-- The 'full' display branch df[month_col] + ' ' + df[year_col].astype(str)
of format_period_for_display: string concatenation needs a string month. -/
def applyDisplayFull : List Row → String → String → Except DateErr (List String)
  | [], _, _ => Except.ok []
  | r :: rs, yc, mc =>
    match getCell r mc with
    | Cell.str s =>
      match applyDisplayFull rs yc mc with
      | Except.error e => Except.error e
      | Except.ok ds => Except.ok ((s ++ " " ++ yearStr (getCell r yc)) :: ds)
    | _ => Except.error DateErr.invalidInput

/-- format_period_for_display (date_utils.py lines 270-299), restricted to
the branches the pipeline exercises ('full' and 'compact'). -/
def format_period_for_display (df : Table) (year_col month_col format_type : String) :
    Except DateErr (List String) :=
  if format_type = "full" then applyDisplayFull df.rows year_col month_col
  else if format_type = "compact" then create_period_column df year_col month_col "month"
  else Except.error (DateErr.unknownPeriodType format_type)

/-- standardize_date_columns (date_utils.py lines 303-333): copy the
table, then assign datum, periode, kwartaal and periode_display. -/
def standardize_date_columns (df : Table) (year_col month_col : String) :
    Except DateErr Table :=
  match add_date_column df year_col month_col "datum" 1 with
  | Except.error e => Except.error e
  | Except.ok df1 =>
    match create_period_column df1 year_col month_col "month" with
    | Except.error e => Except.error e
    | Except.ok periode =>
      match create_period_column (addColumn df1 "periode" (periode.map Cell.str))
          year_col month_col "quarter" with
      | Except.error e => Except.error e
      | Except.ok kwartaal =>
        match format_period_for_display
            (addColumn (addColumn df1 "periode" (periode.map Cell.str))
              "kwartaal" (kwartaal.map Cell.str)) year_col month_col "full" with
        | Except.error e => Except.error e
        | Except.ok display =>
          Except.ok (addColumn
            (addColumn (addColumn df1 "periode" (periode.map Cell.str))
              "kwartaal" (kwartaal.map Cell.str))
            "periode_display" (display.map Cell.str))

/-- month_mapping (building_permits_report.py lines 255-259): the rolling
chart's own capitalized full-name month table. -/
def month_mapping : List (String × Nat) :=
  [("Januari", 1), ("Februari", 2), ("Maart", 3), ("April", 4),
   ("Mei", 5), ("Juni", 6), ("Juli", 7), ("Augustus", 8),
   ("September", 9), ("Oktober", 10), ("November", 11), ("December", 12)]

/-- A region_data row restricted to the columns the rolling chart reads. -/
structure MRow where
  jaar : Int
  maand : String
  alle_woningen : Int
  aantal_huizen : Int
  aantal_flats : Int
deriving DecidableEq, Repr

/-- The distinct (jaar, maand) group keys of a row list. -/
def ymKeys (rs : List MRow) : List (Int × String) :=
  (rs.map (fun r => (r.jaar, r.maand))).dedup

/-- Sum of a metric over the rows of one (jaar, maand) group. -/
def ymSum (rs : List MRow) (k : Int × String) (f : MRow → Int) : Int :=
  ((rs.filter (fun r => r.jaar == k.1 && r.maand == k.2)).map f).sum

/-- groupby(['jaar', 'maand']).agg(sum) (building_permits_report.py lines
248-252): one row per distinct (jaar, maand) pair with summed metrics. -/
def groupby_jaar_maand (rs : List MRow) : List MRow :=
  (ymKeys rs).map (fun k =>
    { jaar := k.1, maand := k.2,
      alle_woningen := ymSum rs k (fun r => r.alle_woningen),
      aantal_huizen := ymSum rs k (fun r => r.aantal_huizen),
      aantal_flats := ymSum rs k (fun r => r.aantal_flats) })

/-- A point of the monthly series: grouped row plus mapped month number
(the datum column is determined by (jaar, maand_nummer, 1)). -/
structure SPoint where
  jaar : Int
  maand : String
  maand_nummer : Nat
  alle_woningen : Int
  aantal_huizen : Int
  aantal_flats : Int
deriving DecidableEq, Repr

/-- Chronological order of the synthesized datum column. -/
def dateLE (p q : SPoint) : Prop :=
  p.jaar < q.jaar ∨ (p.jaar = q.jaar ∧ p.maand_nummer ≤ q.maand_nummer)

instance : DecidableRel dateLE := fun p q => by
  unfold dateLE
  infer_instance

/-- The data preparation of create_rolling_average_chart
(building_permits_report.py lines 244-271): filter jaar >= 2015, group by
(jaar, maand), map maand through month_mapping, drop the rows where the
mapping failed, attach the datum and sort by it ascending. -/
def create_rolling_monthly (region_rows : List MRow) : List SPoint :=
  let filtered := region_rows.filter (fun r => 2015 ≤ r.jaar)
  let monthly_data := groupby_jaar_maand filtered
  let mapped := monthly_data.filterMap (fun g =>
    (month_mapping.lookup g.maand).map (fun n =>
      { jaar := g.jaar, maand := g.maand, maand_nummer := n,
        alle_woningen := g.alle_woningen, aantal_huizen := g.aantal_huizen,
        aantal_flats := g.aantal_flats }))
  List.insertionSort dateLE mapped

/-- Arithmetic mean of a list of rationals. -/
def mean (l : List ℚ) : ℚ := l.sum / (l.length : ℚ)

/-- series.rolling(window=w, min_periods=1).mean()
(building_permits_report.py lines 274-276): the value at position i is the
mean of the trailing window of at most w values ending at i. -/
def rollingMean (w : Nat) (xs : List ℚ) : List ℚ :=
  (List.range xs.length).map (fun i => mean ((xs.take (i + 1)).drop (i + 1 - w)))

/-- The rolling_alle_woningen column of the rolling chart. -/
def rolling_alle_woningen (region_rows : List MRow) : List ℚ :=
  rollingMean 12 ((create_rolling_monthly region_rows).map
    (fun p => (p.alle_woningen : ℚ)))

/-- A region_data row restricted to the columns the quarterly table reads. -/
structure KRow where
  jaar : Int
  kwartaal : String
  alle_woningen : Int
deriving DecidableEq, Repr

/-- The distinct (jaar, kwartaal) group keys of a row list. -/
def yqKeys (rs : List KRow) : List (Int × String) :=
  (rs.map (fun r => (r.jaar, r.kwartaal))).dedup

/-- groupby(['jaar', 'kwartaal']).agg(sum) (building_permits_report.py
lines 376-378). -/
def groupby_jaar_kwartaal (rs : List KRow) : List KRow :=
  (yqKeys rs).map (fun k =>
    { jaar := k.1, kwartaal := k.2,
      alle_woningen :=
        ((rs.filter (fun r => r.jaar == k.1 && r.kwartaal == k.2)).map
          (fun r => r.alle_woningen)).sum })

/-- The regex extraction str.extract(Q followed by one digit): scan for
the first 'Q' immediately followed by a digit and return that digit. -/
def extract_quarter_digit : List Char → Option Char
  | [] => none
  | c :: rest =>
    if c = 'Q' then
      match rest with
      | d :: _ => if d.isDigit then some d else extract_quarter_digit rest
      | [] => none
    else extract_quarter_digit rest

/-- quarter_num column (building_permits_report.py line 381). -/
def quarter_num (s : String) : Option Char := extract_quarter_digit s.data

/-- One row of the pivoted year-by-quarter table: the four quarter cells
plus the Totaal cell. -/
structure PivotRow where
  jaar : Int
  q1 : Int
  q2 : Int
  q3 : Int
  q4 : Int
  totaal : Int
deriving DecidableEq, Repr

/-- One pivot cell: the value of the unique grouped row with this year and
quarter digit, and fillna(0) when there is none. -/
def pivot_cell (grouped : List KRow) (y : Int) (q : Char) : Int :=
  match grouped.find? (fun r => r.jaar == y && quarter_num r.kwartaal == some q) with
  | some r => r.alle_woningen
  | none => 0

/-- The pivot index: distinct years ascending. -/
def pivot_years (grouped : List KRow) : List Int :=
  ((grouped.map (fun r => r.jaar)).dedup).insertionSort (fun a b => a ≤ b)

/-- One year row of the pivot: cells for quarters 1-4 (missing
combinations filled with zero) and Totaal = sum over the four cells
(pivot_table.sum(axis=1) after restricting to the quarter columns). -/
def mkPivotRow (grouped : List KRow) (y : Int) : PivotRow :=
  let c1 := pivot_cell grouped y '1'
  let c2 := pivot_cell grouped y '2'
  let c3 := pivot_cell grouped y '3'
  let c4 := pivot_cell grouped y '4'
  { jaar := y, q1 := c1, q2 := c2, q3 := c3, q4 := c4,
    totaal := [c1, c2, c3, c4].sum }

/-- The pivot step (building_permits_report.py lines 384-399): pandas
pivot raises on duplicate (index, column) pairs; otherwise one row per
distinct year ascending with quarter cells and Totaal. -/
def pivot_year_by_quarter (grouped : List KRow) : Except DateErr (List PivotRow) :=
  if ((grouped.map (fun r => (r.jaar, quarter_num r.kwartaal))).Nodup : Prop) then
    Except.ok ((pivot_years grouped).map (mkPivotRow grouped))
  else Except.error DateErr.duplicatePivotIndex

/-- create_yearly_quarterly_table (building_permits_report.py lines
369-420), up to HTML rendering: filter jaar >= 2015, group by
(jaar, kwartaal), pivot year by quarter. -/
def create_yearly_quarterly_table (region_rows : List KRow) :
    Except DateErr (List PivotRow) :=
  pivot_year_by_quarter (groupby_jaar_kwartaal (region_rows.filter (fun r => 2015 ≤ r.jaar)))

/-! Helper lemmas. -/

theorem dutch_month_to_number_str (s : String) :
    dutch_month_to_number (Cell.str s) =
      match DUTCH_MONTHS.lookup (pyStrip (pyLower s)) with
      | some n => Except.ok n
      | none => Except.error (DateErr.unknownMonth s) := rfl

theorem DUTCH_MONTHS_lookup_self : ∀ p ∈ DUTCH_MONTHS, DUTCH_MONTHS.lookup p.1 = some p.2 := by
  decide

theorem DUTCH_MONTHS_range : ∀ p ∈ DUTCH_MONTHS, 1 ≤ p.2 ∧ p.2 ≤ 12 := by
  decide

theorem DUTCH_MONTHS_lookup_range {s : String} {n : Nat}
    (h : DUTCH_MONTHS.lookup s = some n) : 1 ≤ n ∧ n ≤ 12 := by
  simp only [DUTCH_MONTHS, List.lookup] at h
  repeat' split at h
  all_goals simp_all
  all_goals omega

theorem dutch_month_to_number_range {c : Cell} {m : Nat}
    (h : dutch_month_to_number c = Except.ok m) : 1 ≤ m ∧ m ≤ 12 := by
  cases c with
  | str s =>
    rw [dutch_month_to_number_str] at h
    cases hl : DUTCH_MONTHS.lookup (pyStrip (pyLower s)) with
    | none => rw [hl] at h; cases h
    | some n =>
      rw [hl] at h
      cases h
      exact DUTCH_MONTHS_lookup_range hl
  | null => cases h
  | int n => cases h
  | date y m d => cases h

theorem quarter_facts (m : Nat) (h1 : 1 ≤ m) (h2 : m ≤ 12) :
    1 ≤ quarter_from_month_num (Int.ofNat m) ∧
    quarter_from_month_num (Int.ofNat m) ≤ 4 ∧
    quarter_from_month_num (Int.ofNat m) = Int.ofNat ((m - 1) / 3 + 1) := by
  interval_cases m <;> decide

/-! Claim theorems. -/

/-- C3: dutch_month_to_number maps every vocabulary label (the 12 full
Dutch month names and the 12 three-letter abbreviations of DUTCH_MONTHS),
matched case-insensitively after whitespace trimming, to its month number
in 1-12; it fails with unknownMonth for every trimmed lower-cased input
outside the vocabulary, and with invalidInput for missing or non-string
input. -/
theorem C3_month_to_number :
    (∀ p ∈ DUTCH_MONTHS, 1 ≤ p.2 ∧ p.2 ≤ 12 ∧
      ∀ s : String, pyStrip (pyLower s) = p.1 →
        dutch_month_to_number (Cell.str s) = Except.ok p.2) ∧
    dutch_month_to_number (Cell.str "januari") = Except.ok 1 ∧
    dutch_month_to_number (Cell.str "Jan") = Except.ok 1 ∧
    dutch_month_to_number (Cell.str " JANUARI ") = Except.ok 1 ∧
    dutch_month_to_number (Cell.str "Smarch") =
      Except.error (DateErr.unknownMonth "Smarch") ∧
    (∀ s : String, DUTCH_MONTHS.lookup (pyStrip (pyLower s)) = none →
      dutch_month_to_number (Cell.str s) = Except.error (DateErr.unknownMonth s)) ∧
    dutch_month_to_number Cell.null = Except.error DateErr.invalidInput ∧
    (∀ n : Int, dutch_month_to_number (Cell.int n) = Except.error DateErr.invalidInput) := by
  refine ⟨?_, by decide, by decide, by decide, by decide, ?_, rfl, fun n => rfl⟩
  · intro p hp
    obtain ⟨h1, h2⟩ := DUTCH_MONTHS_range p hp
    refine ⟨h1, h2, fun s hs => ?_⟩
    rw [dutch_month_to_number_str, hs, DUTCH_MONTHS_lookup_self p hp]
  · intro s hs
    rw [dutch_month_to_number_str, hs]

/-- C3 witness: the general vocabulary clause applied to the label "MRT"
(trimming to the abbreviation "mrt") and the unknown-label clause applied
to "Bob". -/
theorem C3_month_to_number_witness :
    dutch_month_to_number (Cell.str "MRT") = Except.ok 3 ∧
    dutch_month_to_number (Cell.str "Bob") = Except.error (DateErr.unknownMonth "Bob") :=
  ⟨(C3_month_to_number.1 ("mrt", 3) (by decide)).2.2 "MRT" (by decide),
   C3_month_to_number.2.2.2.2.2.1 "Bob" (by decide)⟩

/-- C9 counterexample: the quarter computation of the code is the bare
formula (m - 1) // 3 + 1 with no range validation; applied to the
out-of-range month number 13 it returns 5 instead of failing with
invalidInput, so the claim as stated is false of the code. -/
theorem C9_quarter_no_validation : quarter_from_month_num 13 = 5 := by decide

/-- C9 amended: the quarter computation is the pure formula
((monthNumber - 1) div 3) + 1; the code performs no range validation on
month numbers, and none is needed on its actual inputs, because the
formula is only ever applied to outputs of dutch_month_to_number, which
always lie in 1-12, so the computed quarter always lies in 1-4, and
get_quarter_from_month returns the corresponding quarter string. -/
theorem C9_quarter_of_month (s : String) (m : Nat)
    (h : dutch_month_to_number (Cell.str s) = Except.ok m) :
    1 ≤ m ∧ m ≤ 12 ∧
    quarter_from_month_num (Int.ofNat m) = Int.ofNat ((m - 1) / 3 + 1) ∧
    1 ≤ quarter_from_month_num (Int.ofNat m) ∧
    quarter_from_month_num (Int.ofNat m) ≤ 4 ∧
    get_quarter_from_month (Cell.str s) =
      Except.ok ("Q" ++ toString (quarter_from_month_num (Int.ofNat m))) := by
  obtain ⟨h1, h2⟩ := dutch_month_to_number_range h
  obtain ⟨q1, q2, q3⟩ := quarter_facts m h1 h2
  refine ⟨h1, h2, q3, q1, q2, ?_⟩
  unfold get_quarter_from_month
  rw [h]

/-- C9 witness: the amended statement at the label "juli". -/
theorem C9_quarter_of_month_witness :
    1 ≤ 7 ∧ 7 ≤ 12 ∧
    quarter_from_month_num (Int.ofNat 7) = Int.ofNat ((7 - 1) / 3 + 1) ∧
    1 ≤ quarter_from_month_num (Int.ofNat 7) ∧
    quarter_from_month_num (Int.ofNat 7) ≤ 4 ∧
    get_quarter_from_month (Cell.str "juli") =
      Except.ok ("Q" ++ toString (quarter_from_month_num (Int.ofNat 7))) :=
  C9_quarter_of_month "juli" 7 (by decide)

/-- A one-row table with the default Dutch year/month columns, used to
state per-(year, month-label) properties of the column synthesizers. -/
def periodDf (y : Int) (s : String) : Table :=
  { columns := ["jaar", "maand"],
    rows := [[("jaar", Cell.int y), ("maand", Cell.str s)]] }

/-- C4: for every (year, valid month label) pair the synthesized
month-period key is the year, a dash and the zero-padded month number
(format YYYY-MM), the quarter-period key is the year, "-Q" and
N = ((month - 1) div 3) + 1 with N in 1-4, both keys are derived from the
same month number (so they always agree on quarter membership), and
(2023, "Maart") yields "2023-03" and "2023-Q1". -/
theorem C4_period_keys :
    (∀ (y : Int) (s : String) (m : Nat),
      dutch_month_to_number (Cell.str s) = Except.ok m →
      create_period_column (periodDf y s) "jaar" "maand" "month" =
        Except.ok [toString y ++ "-" ++ zfill 2 (toString m)] ∧
      create_period_column (periodDf y s) "jaar" "maand" "quarter" =
        Except.ok [toString y ++ "-Q" ++ toString (quarter_from_month_num (Int.ofNat m))] ∧
      quarter_from_month_num (Int.ofNat m) = Int.ofNat ((m - 1) / 3 + 1) ∧
      1 ≤ quarter_from_month_num (Int.ofNat m) ∧
      quarter_from_month_num (Int.ofNat m) ≤ 4) ∧
    create_period_column (periodDf 2023 "Maart") "jaar" "maand" "month" =
      Except.ok ["2023-03"] ∧
    create_period_column (periodDf 2023 "Maart") "jaar" "maand" "quarter" =
      Except.ok ["2023-Q1"] := by
  refine ⟨?_, by decide, by decide⟩
  intro y s m h
  obtain ⟨h1, h2⟩ := dutch_month_to_number_range h
  obtain ⟨q1, q2, q3⟩ := quarter_facts m h1 h2
  refine ⟨?_, ?_, q3, q1, q2⟩ <;>
    simp [create_period_column, applyMonths, periodDf, getCell, List.lookup, h, yearStr]

/-- C4 witness: the general clause at (2024, "Augustus"). -/
theorem C4_period_keys_witness :
    create_period_column (periodDf 2024 "Augustus") "jaar" "maand" "month" =
      Except.ok [toString (2024 : Int) ++ "-" ++ zfill 2 (toString (8 : Nat))] ∧
    create_period_column (periodDf 2024 "Augustus") "jaar" "maand" "quarter" =
      Except.ok [toString (2024 : Int) ++ "-Q" ++
        toString (quarter_from_month_num (Int.ofNat 8))] ∧
    quarter_from_month_num (Int.ofNat 8) = Int.ofNat ((8 - 1) / 3 + 1) ∧
    1 ≤ quarter_from_month_num (Int.ofNat 8) ∧
    quarter_from_month_num (Int.ofNat 8) ≤ 4 :=
  C4_period_keys.1 2024 "Augustus" 8 (by decide)

/-- The 5-row fixture of date_utils.py lines 342-346: years 2023-2024,
months Januari..Mei, one metric column. -/
def sample_data : Table :=
  { columns := ["jaar", "maand", "waarde"],
    rows :=
      [[("jaar", Cell.int 2023), ("maand", Cell.str "Januari"), ("waarde", Cell.int 100)],
       [("jaar", Cell.int 2023), ("maand", Cell.str "Februari"), ("waarde", Cell.int 110)],
       [("jaar", Cell.int 2023), ("maand", Cell.str "Maart"), ("waarde", Cell.int 120)],
       [("jaar", Cell.int 2024), ("maand", Cell.str "April"), ("waarde", Cell.int 130)],
       [("jaar", Cell.int 2024), ("maand", Cell.str "Mei"), ("waarde", Cell.int 140)]] }

/-- C6: filter_by_period applies its three optional filters conjunctively
(a row is kept exactly when its year cell satisfies the inclusive bounds
and its raw month label is a case-sensitive member of the months set), it
never changes the column set, output rows are input rows, and on the
5-row fixture with start_year 2024 and months April/Mei it returns exactly
the two matching 2024 rows; a lower-cased months set matches nothing and
the empty result is returned as a valid table. -/
theorem C6_filter_by_period :
    (∀ (df : Table) (yc mc : String) (sy ey : Option Int)
       (ms : Option (List String)) (r : Row),
      r ∈ (filter_by_period df yc mc sy ey ms).rows ↔
        r ∈ df.rows ∧
        (∀ y, sy = some y → cellIntGe (getCell r yc) y = true) ∧
        (∀ y, ey = some y → cellIntLe (getCell r yc) y = true) ∧
        (∀ l, ms = some l → cellIsIn (getCell r mc) l = true)) ∧
    (∀ df yc mc sy ey ms, (filter_by_period df yc mc sy ey ms).columns = df.columns) ∧
    filter_by_period sample_data "jaar" "maand" (some 2024) none (some ["April", "Mei"]) =
      { columns := ["jaar", "maand", "waarde"],
        rows :=
          [[("jaar", Cell.int 2024), ("maand", Cell.str "April"), ("waarde", Cell.int 130)],
           [("jaar", Cell.int 2024), ("maand", Cell.str "Mei"), ("waarde", Cell.int 140)]] } ∧
    filter_by_period sample_data "jaar" "maand" none none (some ["april", "mei"]) =
      { columns := ["jaar", "maand", "waarde"], rows := [] } := by
  refine ⟨?_, ?_, by decide, by decide⟩
  · intro df yc mc sy ey ms r
    cases sy <;> cases ey <;> cases ms <;>
      simp [filter_by_period, List.mem_filter] <;> tauto
  · intro df yc mc sy ey ms
    cases sy <;> cases ey <;> cases ms <;> simp [filter_by_period]

/-- C6 witness: the membership characterization applied to the first 2024
fixture row under the scenario filters. -/
theorem C6_filter_by_period_witness :
    [("jaar", Cell.int 2024), ("maand", Cell.str "April"), ("waarde", Cell.int 130)] ∈
        sample_data.rows ∧
    (∀ y, (some 2024 : Option Int) = some y →
      cellIntGe (getCell [("jaar", Cell.int 2024), ("maand", Cell.str "April"),
        ("waarde", Cell.int 130)] "jaar") y = true) ∧
    (∀ y, (none : Option Int) = some y →
      cellIntLe (getCell [("jaar", Cell.int 2024), ("maand", Cell.str "April"),
        ("waarde", Cell.int 130)] "jaar") y = true) ∧
    (∀ l, (some ["April", "Mei"] : Option (List String)) = some l →
      cellIsIn (getCell [("jaar", Cell.int 2024), ("maand", Cell.str "April"),
        ("waarde", Cell.int 130)] "maand") l = true) :=
  (C6_filter_by_period.1 sample_data "jaar" "maand" (some 2024) none
    (some ["April", "Mei"])
    [("jaar", Cell.int 2024), ("maand", Cell.str "April"), ("waarde", Cell.int 130)]).mp
    (by decide)

theorem applyMonths_unknown : ∀ (rs : List Row) (mc : String),
    (∀ r ∈ rs, ∃ s, getCell r mc = Cell.str s) →
    (∃ r ∈ rs, ∃ s, getCell r mc = Cell.str s ∧
      DUTCH_MONTHS.lookup (pyStrip (pyLower s)) = none) →
    ∃ s, (∃ r ∈ rs, getCell r mc = Cell.str s) ∧
      DUTCH_MONTHS.lookup (pyStrip (pyLower s)) = none ∧
      applyMonths rs mc = Except.error (DateErr.unknownMonth s) := by
  intro rs mc
  induction rs with
  | nil =>
    intro _ hbad
    obtain ⟨r, hr, _⟩ := hbad
    exact absurd hr (List.not_mem_nil r)
  | cons r rs ih =>
    intro hstr hbad
    obtain ⟨s0, hs0⟩ := hstr r (List.mem_cons_self r rs)
    by_cases hl : DUTCH_MONTHS.lookup (pyStrip (pyLower s0)) = none
    · exact ⟨s0, ⟨r, List.mem_cons_self r rs, hs0⟩, hl,
        by simp [applyMonths, hs0, dutch_month_to_number_str, hl]⟩
    · obtain ⟨n, hn⟩ := Option.ne_none_iff_exists'.mp hl
      have hbad' : ∃ r' ∈ rs, ∃ s, getCell r' mc = Cell.str s ∧
          DUTCH_MONTHS.lookup (pyStrip (pyLower s)) = none := by
        obtain ⟨r', hr', s', hs', hl'⟩ := hbad
        rcases List.mem_cons.mp hr' with hh | hh
        · subst hh
          rw [hs0] at hs'
          cases hs'
          exact absurd hl' hl
        · exact ⟨r', hh, s', hs', hl'⟩
      obtain ⟨s, ⟨r2, hr2, hs2⟩, hl2, happ⟩ :=
        ih (fun x hx => hstr x (List.mem_cons_of_mem r hx)) hbad'
      exact ⟨s, ⟨r2, List.mem_cons_of_mem r hr2, hs2⟩, hl2,
        by simp [applyMonths, hs0, dutch_month_to_number_str, hn, happ]⟩

theorem standardize_error_of_applyMonths (df : Table) (yc mc : String) (e : DateErr)
    (hy : yc ∈ df.columns) (hm : mc ∈ df.columns)
    (h : applyMonths df.rows mc = Except.error e) :
    standardize_date_columns df yc mc = Except.error e := by
  simp [standardize_date_columns, add_date_column, create_date_from_columns, hy, hm, h]

/-- C5: the Period Column Synthesizer fails with missingColumn whenever
the named year column (checked first) or month column is absent; when the
columns exist and every month cell is a string but some row's month label
is unrecognized, the whole operation fails with unknownMonth carrying the
offending row's label, and — the result being an error — no partial output
is produced and no row is silently dropped. -/
theorem C5_synthesize_errors :
    (∀ (df : Table) (yc mc : String), yc ∉ df.columns →
      standardize_date_columns df yc mc = Except.error (DateErr.missingColumn yc)) ∧
    (∀ (df : Table) (yc mc : String), yc ∈ df.columns → mc ∉ df.columns →
      standardize_date_columns df yc mc = Except.error (DateErr.missingColumn mc)) ∧
    (∀ (df : Table) (yc mc : String), yc ∈ df.columns → mc ∈ df.columns →
      (∀ r ∈ df.rows, ∃ s, getCell r mc = Cell.str s) →
      (∃ r ∈ df.rows, ∃ s, getCell r mc = Cell.str s ∧
        DUTCH_MONTHS.lookup (pyStrip (pyLower s)) = none) →
      ∃ s, (∃ r ∈ df.rows, getCell r mc = Cell.str s) ∧
        DUTCH_MONTHS.lookup (pyStrip (pyLower s)) = none ∧
        standardize_date_columns df yc mc = Except.error (DateErr.unknownMonth s)) := by
  refine ⟨?_, ?_, ?_⟩
  · intro df yc mc h
    simp [standardize_date_columns, add_date_column, create_date_from_columns, h]
  · intro df yc mc hy hm
    simp [standardize_date_columns, add_date_column, create_date_from_columns, hy, hm]
  · intro df yc mc hy hm hstr hbad
    obtain ⟨s, hmem, hl, happ⟩ := applyMonths_unknown df.rows mc hstr hbad
    exact ⟨s, hmem, hl, standardize_error_of_applyMonths df yc mc _ hy hm happ⟩

/-- C5 witness: a one-row table whose month label "Smarch" is outside the
vocabulary makes the whole standardization fail with unknownMonth. -/
theorem C5_synthesize_errors_witness :
    ∃ s, (∃ r ∈ (periodDf 2023 "Smarch").rows, getCell r "maand" = Cell.str s) ∧
      DUTCH_MONTHS.lookup (pyStrip (pyLower s)) = none ∧
      standardize_date_columns (periodDf 2023 "Smarch") "jaar" "maand" =
        Except.error (DateErr.unknownMonth s) :=
  C5_synthesize_errors.2.2 (periodDf 2023 "Smarch") "jaar" "maand" (by decide) (by decide)
    (by
      intro r hr
      simp [periodDf] at hr
      subst hr
      exact ⟨"Smarch", by decide⟩)
    ⟨[("jaar", Cell.int 2023), ("maand", Cell.str "Smarch")], by simp [periodDf],
      "Smarch", by decide, by decide⟩

theorem applyMonths_ok_length : ∀ (rs : List Row) (mc : String) (ms : List Nat),
    applyMonths rs mc = Except.ok ms → ms.length = rs.length := by
  intro rs mc
  induction rs with
  | nil =>
    intro ms h
    cases h
    rfl
  | cons r rs ih =>
    intro ms h
    unfold applyMonths at h
    cases hd : dutch_month_to_number (getCell r mc) with
    | error e => rw [hd] at h; cases h
    | ok m =>
      rw [hd] at h
      cases ht : applyMonths rs mc with
      | error e => rw [ht] at h; cases h
      | ok ms2 =>
        rw [ht] at h
        cases h
        simp [ih ms2 ht]

theorem applyYears_ok_length : ∀ (rs : List Row) (yc : String) (ys : List Int),
    applyYears rs yc = Except.ok ys → ys.length = rs.length := by
  intro rs yc
  induction rs with
  | nil =>
    intro ys h
    cases h
    rfl
  | cons r rs ih =>
    intro ys h
    unfold applyYears at h
    cases hc : getCell r yc with
    | int y =>
      rw [hc] at h
      cases ht : applyYears rs yc with
      | error e => rw [ht] at h; cases h
      | ok ys2 =>
        rw [ht] at h
        cases h
        simp [ih ys2 ht]
    | null => rw [hc] at h; cases h
    | str s => rw [hc] at h; cases h
    | date y m d => rw [hc] at h; cases h

theorem applyDisplayFull_ok_length : ∀ (rs : List Row) (yc mc : String) (ds : List String),
    applyDisplayFull rs yc mc = Except.ok ds → ds.length = rs.length := by
  intro rs yc mc
  induction rs with
  | nil =>
    intro ds h
    cases h
    rfl
  | cons r rs ih =>
    intro ds h
    unfold applyDisplayFull at h
    cases hc : getCell r mc with
    | str s =>
      rw [hc] at h
      cases ht : applyDisplayFull rs yc mc with
      | error e => rw [ht] at h; cases h
      | ok ds2 =>
        rw [ht] at h
        cases h
        simp [ih ds2 ht]
    | null => rw [hc] at h; cases h
    | int y => rw [hc] at h; cases h
    | date y m d => rw [hc] at h; cases h

theorem create_date_from_columns_ok_length (df : Table) (yc mc : String) (day : Nat)
    (dates : List Cell) (h : create_date_from_columns df yc mc day = Except.ok dates) :
    dates.length = df.rows.length := by
  unfold create_date_from_columns at h
  split at h
  · cases h
  · split at h
    · cases h
    · cases hm : applyMonths df.rows mc with
      | error e => rw [hm] at h; cases h
      | ok months =>
        rw [hm] at h
        cases hy : applyYears df.rows yc with
        | error e => rw [hy] at h; cases h
        | ok years =>
          rw [hy] at h
          cases h
          simp [List.length_zipWith, applyMonths_ok_length _ _ _ hm,
            applyYears_ok_length _ _ _ hy]

theorem create_period_column_month_ok_length (df : Table) (yc mc : String)
    (out : List String) (h : create_period_column df yc mc "month" = Except.ok out) :
    out.length = df.rows.length := by
  unfold create_period_column at h
  rw [if_neg (by decide), if_pos rfl] at h
  cases hm : applyMonths df.rows mc with
  | error e => rw [hm] at h; cases h
  | ok months =>
    rw [hm] at h
    cases h
    simp [List.length_zipWith, applyMonths_ok_length _ _ _ hm]

theorem create_period_column_quarter_ok_length (df : Table) (yc mc : String)
    (out : List String) (h : create_period_column df yc mc "quarter" = Except.ok out) :
    out.length = df.rows.length := by
  unfold create_period_column at h
  rw [if_neg (by decide), if_neg (by decide), if_pos rfl] at h
  cases hm : applyMonths df.rows mc with
  | error e => rw [hm] at h; cases h
  | ok months =>
    rw [hm] at h
    cases h
    simp [List.length_zipWith, applyMonths_ok_length _ _ _ hm]

theorem format_period_full_ok_length (df : Table) (yc mc : String)
    (out : List String) (h : format_period_for_display df yc mc "full" = Except.ok out) :
    out.length = df.rows.length := by
  unfold format_period_for_display at h
  rw [if_pos rfl] at h
  exact applyDisplayFull_ok_length _ _ _ _ h

theorem addColumn_rows_length (df : Table) (name : String) (vals : List Cell)
    (h : vals.length = df.rows.length) :
    (addColumn df name vals).rows.length = df.rows.length := by
  simp [addColumn, List.length_zipWith, h]

theorem addColumn_columns_fresh (df : Table) (name : String) (vals : List Cell)
    (h : name ∉ df.columns) : (addColumn df name vals).columns = df.columns ++ [name] := by
  simp [addColumn, h]

theorem addColumn_rows_getD (df : Table) (name : String) (vals : List Cell) (i : Nat)
    (hlen : vals.length = df.rows.length) (hi : i < df.rows.length) :
    (addColumn df name vals).rows.getD i [] =
      setCol (df.rows.getD i []) name (vals.getD i Cell.null) := by
  have h1 : i < (List.zipWith (fun r v => setCol r name v) df.rows vals).length := by
    simp only [List.length_zipWith]
    omega
  show (List.zipWith (fun r v => setCol r name v) df.rows vals).getD i [] = _
  rw [List.getD_eq_getElem _ _ h1, List.getElem_zipWith,
    ← List.getD_eq_getElem df.rows ([] : Row) hi,
    ← List.getD_eq_getElem vals Cell.null (by omega)]

theorem setCol_fresh (r : Row) (name : String) (v : Cell) (h : r.lookup name = none) :
    setCol r name v = r ++ [(name, v)] := by
  simp [setCol, h]

theorem lookup_append_single_none (r : Row) (n nn : String) (v : Cell)
    (h1 : r.lookup nn = none) (h2 : nn ≠ n) : (r ++ [(n, v)]).lookup nn = none := by
  have hb : (nn == n) = false := beq_eq_false_iff_ne.mpr h2
  rw [List.lookup_append, h1]
  simp [List.lookup_cons, hb]

/-- C8: the Period Column Synthesizer never alters the caller's table:
when it succeeds on a table that does not already carry the four derived
columns, the output column list is the input column list extended by
exactly datum, periode, kwartaal and periode_display, the output has the
same number of rows, and every output row is the corresponding input row,
unchanged, extended by exactly the four derived cells (the input value
itself is immutable in this model, matching the df.copy() semantics of
the code). -/
theorem C8_standardize_frame :
    ∀ (df : Table) (yc mc : String) (out : Table),
      "datum" ∉ df.columns → "periode" ∉ df.columns → "kwartaal" ∉ df.columns →
      "periode_display" ∉ df.columns →
      (∀ r ∈ df.rows, r.lookup "datum" = none ∧ r.lookup "periode" = none ∧
        r.lookup "kwartaal" = none ∧ r.lookup "periode_display" = none) →
      standardize_date_columns df yc mc = Except.ok out →
      out.columns = df.columns ++ ["datum", "periode", "kwartaal", "periode_display"] ∧
      out.rows.length = df.rows.length ∧
      (∀ i, i < df.rows.length →
        ∃ d p k pd : Cell,
          out.rows.getD i [] = df.rows.getD i [] ++
            [("datum", d), ("periode", p), ("kwartaal", k), ("periode_display", pd)]) := by
  intro df yc mc out hc1 hc2 hc3 hc4 hrows hok
  unfold standardize_date_columns at hok
  cases hadd : add_date_column df yc mc "datum" 1 with
  | error e => simp only [hadd] at hok; cases hok
  | ok df1 =>
    simp only [hadd] at hok
    unfold add_date_column at hadd
    cases hcd : create_date_from_columns df yc mc 1 with
    | error e => rw [hcd] at hadd; cases hadd
    | ok dates =>
      rw [hcd] at hadd
      cases hadd
      cases hper : create_period_column (addColumn df "datum" dates) yc mc "month" with
      | error e => simp only [hper] at hok; cases hok
      | ok periode =>
        simp only [hper] at hok
        cases hkw : create_period_column
            (addColumn (addColumn df "datum" dates) "periode" (periode.map Cell.str))
            yc mc "quarter" with
        | error e => simp only [hkw] at hok; cases hok
        | ok kw =>
          simp only [hkw] at hok
          cases hdisp : format_period_for_display
              (addColumn (addColumn (addColumn df "datum" dates) "periode"
                (periode.map Cell.str)) "kwartaal" (kw.map Cell.str)) yc mc "full" with
          | error e => simp only [hdisp] at hok; cases hok
          | ok disp =>
            simp only [hdisp, Except.ok.injEq] at hok
            subst hok
            have LD : dates.length = df.rows.length :=
              create_date_from_columns_ok_length df yc mc 1 dates hcd
            have L1 : (addColumn df "datum" dates).rows.length = df.rows.length :=
              addColumn_rows_length df "datum" dates LD
            have LP : periode.length = df.rows.length := by
              rw [create_period_column_month_ok_length _ yc mc periode hper, L1]
            have L2 : (addColumn (addColumn df "datum" dates) "periode"
                (periode.map Cell.str)).rows.length = df.rows.length := by
              rw [addColumn_rows_length _ "periode" _ (by simp [LP, L1]), L1]
            have LK : kw.length = df.rows.length := by
              rw [create_period_column_quarter_ok_length _ yc mc kw hkw, L2]
            have L3 : (addColumn (addColumn (addColumn df "datum" dates) "periode"
                (periode.map Cell.str)) "kwartaal" (kw.map Cell.str)).rows.length =
                df.rows.length := by
              rw [addColumn_rows_length _ "kwartaal" _ (by simp [LK, L2]), L2]
            have LF : disp.length = df.rows.length := by
              rw [format_period_full_ok_length _ yc mc disp hdisp, L3]
            have F1 : (addColumn df "datum" dates).columns = df.columns ++ ["datum"] :=
              addColumn_columns_fresh df "datum" dates hc1
            have hp2 : "periode" ∉ (addColumn df "datum" dates).columns := by
              rw [F1]
              simp [hc2]
            have F2 : (addColumn (addColumn df "datum" dates) "periode"
                (periode.map Cell.str)).columns =
                (addColumn df "datum" dates).columns ++ ["periode"] :=
              addColumn_columns_fresh _ "periode" _ hp2
            have hk3 : "kwartaal" ∉ (addColumn (addColumn df "datum" dates) "periode"
                (periode.map Cell.str)).columns := by
              rw [F2, F1]
              simp [hc3]
            have F3 : (addColumn (addColumn (addColumn df "datum" dates) "periode"
                (periode.map Cell.str)) "kwartaal" (kw.map Cell.str)).columns =
                (addColumn (addColumn df "datum" dates) "periode"
                  (periode.map Cell.str)).columns ++ ["kwartaal"] :=
              addColumn_columns_fresh _ "kwartaal" _ hk3
            have hd4 : "periode_display" ∉ (addColumn (addColumn (addColumn df "datum"
                dates) "periode" (periode.map Cell.str)) "kwartaal"
                (kw.map Cell.str)).columns := by
              rw [F3, F2, F1]
              simp [hc4]
            refine ⟨?_, ?_, ?_⟩
            · rw [addColumn_columns_fresh _ "periode_display" _ hd4, F3, F2, F1]
              simp
            · rw [addColumn_rows_length _ "periode_display" _ (by simp [LF, L3]), L3]
            · intro i hi
              have hmem : df.rows.getD i [] ∈ df.rows := by
                rw [List.getD_eq_getElem _ _ hi]
                exact List.getElem_mem hi
              obtain ⟨k1, k2, k3, k4⟩ := hrows _ hmem
              have E1 : (addColumn df "datum" dates).rows.getD i [] =
                  df.rows.getD i [] ++ [("datum", dates.getD i Cell.null)] := by
                rw [addColumn_rows_getD df "datum" dates i LD hi, setCol_fresh _ _ _ k1]
              have E2 : (addColumn (addColumn df "datum" dates) "periode"
                  (periode.map Cell.str)).rows.getD i [] =
                  df.rows.getD i [] ++ [("datum", dates.getD i Cell.null)] ++
                    [("periode", (periode.map Cell.str).getD i Cell.null)] := by
                rw [addColumn_rows_getD _ "periode" _ i (by simp [LP, L1]) (by omega),
                  E1, setCol_fresh]
                exact lookup_append_single_none _ "datum" "periode" _ k2 (by decide)
              have E3 : (addColumn (addColumn (addColumn df "datum" dates) "periode"
                  (periode.map Cell.str)) "kwartaal" (kw.map Cell.str)).rows.getD i [] =
                  df.rows.getD i [] ++ [("datum", dates.getD i Cell.null)] ++
                    [("periode", (periode.map Cell.str).getD i Cell.null)] ++
                    [("kwartaal", (kw.map Cell.str).getD i Cell.null)] := by
                rw [addColumn_rows_getD _ "kwartaal" _ i (by simp [LK, L2]) (by omega),
                  E2, setCol_fresh]
                exact lookup_append_single_none _ "periode" "kwartaal" _
                  (lookup_append_single_none _ "datum" "kwartaal" _ k3 (by decide))
                  (by decide)
              refine ⟨dates.getD i Cell.null, (periode.map Cell.str).getD i Cell.null,
                (kw.map Cell.str).getD i Cell.null, (disp.map Cell.str).getD i Cell.null, ?_⟩
              rw [addColumn_rows_getD _ "periode_display" _ i (by simp [LF, L3]) (by omega),
                E3, setCol_fresh]
              · simp
              · exact lookup_append_single_none _ "kwartaal" "periode_display" _
                  (lookup_append_single_none _ "periode" "periode_display" _
                    (lookup_append_single_none _ "datum" "periode_display" _ k4 (by decide))
                    (by decide))
                  (by decide)

/-- The standardized output of the one-row (2023, Maart) fixture, used by
the C8 witness. -/
def maartOut : Table :=
  { columns := ["jaar", "maand", "datum", "periode", "kwartaal", "periode_display"],
    rows := [[("jaar", Cell.int 2023), ("maand", Cell.str "Maart"),
      ("datum", Cell.date 2023 3 1), ("periode", Cell.str "2023-03"),
      ("kwartaal", Cell.str "2023-Q1"), ("periode_display", Cell.str "Maart 2023")]] }

/-- C8 witness: the frame property instantiated on the one-row
(2023, Maart) fixture and its concrete standardized output. -/
theorem C8_standardize_frame_witness :
    maartOut.columns = (periodDf 2023 "Maart").columns ++
      ["datum", "periode", "kwartaal", "periode_display"] ∧
    maartOut.rows.length = (periodDf 2023 "Maart").rows.length ∧
    (∀ i, i < (periodDf 2023 "Maart").rows.length →
      ∃ d p k pd : Cell,
        maartOut.rows.getD i [] = (periodDf 2023 "Maart").rows.getD i [] ++
          [("datum", d), ("periode", p), ("kwartaal", k), ("periode_display", pd)]) :=
  C8_standardize_frame (periodDf 2023 "Maart") "jaar" "maand" maartOut (by decide)
    (by decide) (by decide) (by decide)
    (by
      intro r hr
      simp [periodDf] at hr
      subst hr
      exact ⟨rfl, rfl, rfl, rfl⟩)
    (by decide)

theorem create_rolling_monthly_sound (rs : List MRow) (p : SPoint)
    (hp : p ∈ create_rolling_monthly rs) :
    month_mapping.lookup p.maand = some p.maand_nummer ∧
    ∃ g ∈ groupby_jaar_maand (rs.filter (fun r => 2015 ≤ r.jaar)),
      p.jaar = g.jaar ∧ p.maand = g.maand ∧ p.alle_woningen = g.alle_woningen := by
  unfold create_rolling_monthly at hp
  rw [(List.perm_insertionSort dateLE _).mem_iff, List.mem_filterMap] at hp
  obtain ⟨g, hg, hf⟩ := hp
  cases hl : month_mapping.lookup g.maand with
  | none => rw [hl] at hf; cases hf
  | some n =>
    rw [hl] at hf
    cases hf
    exact ⟨hl, g, hg, rfl, rfl, rfl⟩

theorem create_rolling_monthly_complete (rs : List MRow) (g : MRow) (n : Nat)
    (hg : g ∈ groupby_jaar_maand (rs.filter (fun r => 2015 ≤ r.jaar)))
    (hl : month_mapping.lookup g.maand = some n) :
    ({ jaar := g.jaar, maand := g.maand, maand_nummer := n,
       alle_woningen := g.alle_woningen, aantal_huizen := g.aantal_huizen,
       aantal_flats := g.aantal_flats } : SPoint) ∈ create_rolling_monthly rs := by
  unfold create_rolling_monthly
  rw [(List.perm_insertionSort dateLE _).mem_iff, List.mem_filterMap]
  exact ⟨g, hg, by rw [hl]; rfl⟩

/-- C7: the Rolling Metrics Engine tolerates unmappable month labels: a
grouped (jaar, maand) row whose label is outside its month table is
excluded from the monthly series while every mappable group still yields
its series point — the computation continues instead of aborting — whereas
the Synthesizer aborts the whole standardization with an error on the same
condition (an unrecognized month label among the rows). -/
theorem C7_rolling_engine_drops_unmappable :
    (∀ (rs : List MRow) (p : SPoint), p ∈ create_rolling_monthly rs →
      month_mapping.lookup p.maand = some p.maand_nummer) ∧
    (∀ (rs : List MRow) (g : MRow) (n : Nat),
      g ∈ groupby_jaar_maand (rs.filter (fun r => 2015 ≤ r.jaar)) →
      month_mapping.lookup g.maand = some n →
      ({ jaar := g.jaar, maand := g.maand, maand_nummer := n,
         alle_woningen := g.alle_woningen, aantal_huizen := g.aantal_huizen,
         aantal_flats := g.aantal_flats } : SPoint) ∈ create_rolling_monthly rs) ∧
    (∀ (rs : List MRow) (g : MRow),
      g ∈ groupby_jaar_maand (rs.filter (fun r => 2015 ≤ r.jaar)) →
      month_mapping.lookup g.maand = none →
      ∀ p ∈ create_rolling_monthly rs, ¬(p.jaar = g.jaar ∧ p.maand = g.maand)) ∧
    (∀ (df : Table) (yc mc : String), yc ∈ df.columns → mc ∈ df.columns →
      (∀ r ∈ df.rows, ∃ s, getCell r mc = Cell.str s) →
      (∃ r ∈ df.rows, ∃ s, getCell r mc = Cell.str s ∧
        DUTCH_MONTHS.lookup (pyStrip (pyLower s)) = none) →
      ∃ e, standardize_date_columns df yc mc = Except.error e) := by
  refine ⟨?_, ?_, ?_, ?_⟩
  · intro rs p hp
    exact (create_rolling_monthly_sound rs p hp).1
  · intro rs g n hg hl
    exact create_rolling_monthly_complete rs g n hg hl
  · intro rs g hg hl p hp hcontra
    have hs := (create_rolling_monthly_sound rs p hp).1
    rw [hcontra.2, hl] at hs
    cases hs
  · intro df yc mc hy hm hstr hbad
    obtain ⟨s, _, _, happ⟩ := applyMonths_unknown df.rows mc hstr hbad
    exact ⟨DateErr.unknownMonth s, standardize_error_of_applyMonths df yc mc _ hy hm happ⟩

/-- C7 witness: on a two-row fixture whose second label "jan" is outside
the rolling month table, the mappable group still yields its point. -/
theorem C7_rolling_engine_drops_unmappable_witness :
    ({ jaar := 2020, maand := "Januari", maand_nummer := 1, alle_woningen := 5,
       aantal_huizen := 3, aantal_flats := 2 } : SPoint) ∈
      create_rolling_monthly
        [{ jaar := 2020, maand := "Januari", alle_woningen := 5, aantal_huizen := 3,
           aantal_flats := 2 },
         { jaar := 2020, maand := "jan", alle_woningen := 7, aantal_huizen := 4,
           aantal_flats := 3 }] :=
  C7_rolling_engine_drops_unmappable.2.1
    [{ jaar := 2020, maand := "Januari", alle_woningen := 5, aantal_huizen := 3,
       aantal_flats := 2 },
     { jaar := 2020, maand := "jan", alle_woningen := 7, aantal_huizen := 4,
       aantal_flats := 3 }]
    { jaar := 2020, maand := "Januari", alle_woningen := 5, aantal_huizen := 3,
      aantal_flats := 2 }
    1 (by decide) (by decide)

/-- The twelve capitalized full Dutch month names, exactly the keys of the
rolling chart's month table. -/
def capitalized_month_names : List String :=
  ["Januari", "Februari", "Maart", "April", "Mei", "Juni", "Juli",
   "Augustus", "September", "Oktober", "November", "December"]

theorem month_mapping_isSome_iff (s : String) :
    (month_mapping.lookup s).isSome = true ↔ s ∈ capitalized_month_names := by
  simp only [month_mapping, List.lookup, capitalized_month_names]
  repeat' split
  all_goals simp_all [beq_iff_eq]

/-- C10: the Rolling Metrics Engine's month recognition is strictly
narrower than the Period Normalizer's: its month table recognizes a label
exactly when it is one of the twelve capitalized full Dutch month names
(case-sensitive, untrimmed, no abbreviations), every series point carries
such a label, every label it accepts is accepted by the normalizer with
the same month number, and the normalizer-accepted labels "jan",
"JANUARI" and " Januari " are all rejected by the rolling table, so their
rows are silently absent from the rolling series. -/
theorem C10_rolling_vocabulary :
    (∀ s : String, (month_mapping.lookup s).isSome = true ↔
      s ∈ capitalized_month_names) ∧
    (∀ (rs : List MRow) (p : SPoint), p ∈ create_rolling_monthly rs →
      p.maand ∈ capitalized_month_names) ∧
    (∀ (s : String) (n : Nat), month_mapping.lookup s = some n →
      dutch_month_to_number (Cell.str s) = Except.ok n) ∧
    dutch_month_to_number (Cell.str "jan") = Except.ok 1 ∧
    month_mapping.lookup "jan" = none ∧
    dutch_month_to_number (Cell.str "JANUARI") = Except.ok 1 ∧
    month_mapping.lookup "JANUARI" = none ∧
    dutch_month_to_number (Cell.str " Januari ") = Except.ok 1 ∧
    month_mapping.lookup " Januari " = none := by
  refine ⟨month_mapping_isSome_iff, ?_, ?_, by decide, by decide, by decide, by decide,
    by decide, by decide⟩
  · intro rs p hp
    have hs := (create_rolling_monthly_sound rs p hp).1
    exact (month_mapping_isSome_iff p.maand).mp (by rw [hs]; rfl)
  · intro s n h
    simp only [month_mapping, List.lookup] at h
    repeat' split at h
    all_goals simp_all [beq_iff_eq]
    all_goals subst_vars
    all_goals decide

/-- C10 witness: the narrowing clause at the label "Mei" and the
recognition clause at "Oktober". -/
theorem C10_rolling_vocabulary_witness :
    dutch_month_to_number (Cell.str "Mei") = Except.ok 5 ∧
    "Oktober" ∈ capitalized_month_names :=
  ⟨C10_rolling_vocabulary.2.2.1 "Mei" 5 (by decide),
   (C10_rolling_vocabulary.1 "Oktober").mp (by decide)⟩

/-- C2: a successful pivot has exactly one row per distinct year of the
grouped input (a year absent from the input never appears), rows are in
ascending year order, each row carries the four quarter cells (a missing
(year, quarter) combination gives a zero cell) plus a Totaal cell equal to
the sum of its four quarter cells. -/
theorem C2_pivot_year_by_quarter :
    ∀ (grouped : List KRow) (t : List PivotRow),
      pivot_year_by_quarter grouped = Except.ok t →
      (∀ y : Int, (∃ pr ∈ t, pr.jaar = y) ↔ y ∈ grouped.map (fun r => r.jaar)) ∧
      (t.map (fun pr => pr.jaar)).Sorted (fun a b => a ≤ b) ∧
      (t.map (fun pr => pr.jaar)).Nodup ∧
      (∀ pr ∈ t, pr.totaal = pr.q1 + pr.q2 + pr.q3 + pr.q4) ∧
      (∀ pr ∈ t,
        pr.q1 = pivot_cell grouped pr.jaar '1' ∧
        pr.q2 = pivot_cell grouped pr.jaar '2' ∧
        pr.q3 = pivot_cell grouped pr.jaar '3' ∧
        pr.q4 = pivot_cell grouped pr.jaar '4') ∧
      (∀ (y : Int) (q : Char),
        (∀ r ∈ grouped, ¬(r.jaar = y ∧ quarter_num r.kwartaal = some q)) →
        pivot_cell grouped y q = 0) := by
  intro grouped t h
  unfold pivot_year_by_quarter at h
  split at h
  · cases h
    have hyears : ∀ y : Int, y ∈ pivot_years grouped ↔
        y ∈ grouped.map (fun r => r.jaar) := by
      intro y
      unfold pivot_years
      rw [(List.perm_insertionSort _ _).mem_iff, List.mem_dedup]
    refine ⟨?_, ?_, ?_, ?_, ?_, ?_⟩
    · intro y
      constructor
      · rintro ⟨pr, hpr, hy⟩
        obtain ⟨y2, hy2, rfl⟩ := List.mem_map.mp hpr
        rw [← hy]
        exact (hyears y2).mp hy2
      · intro hy
        exact ⟨mkPivotRow grouped y,
          List.mem_map.mpr ⟨y, (hyears y).mpr hy, rfl⟩, rfl⟩
    · have hmap : (pivot_years grouped).map (fun y => (mkPivotRow grouped y).jaar) =
          pivot_years grouped := by
        simp [mkPivotRow]
      rw [List.map_map]
      show ((pivot_years grouped).map (fun y => (mkPivotRow grouped y).jaar)).Sorted _
      rw [hmap]
      exact List.sorted_insertionSort _ _
    · have hmap : (pivot_years grouped).map (fun y => (mkPivotRow grouped y).jaar) =
          pivot_years grouped := by
        simp [mkPivotRow]
      rw [List.map_map]
      show ((pivot_years grouped).map (fun y => (mkPivotRow grouped y).jaar)).Nodup
      rw [hmap]
      exact (List.perm_insertionSort _ _).nodup_iff.mpr (List.nodup_dedup _)
    · intro pr hpr
      obtain ⟨y2, _, rfl⟩ := List.mem_map.mp hpr
      show [pivot_cell grouped y2 '1', pivot_cell grouped y2 '2',
        pivot_cell grouped y2 '3', pivot_cell grouped y2 '4'].sum = _
      simp [mkPivotRow]
      ring
    · intro pr hpr
      obtain ⟨y2, _, rfl⟩ := List.mem_map.mp hpr
      exact ⟨rfl, rfl, rfl, rfl⟩
    · intro y q hnone
      unfold pivot_cell
      rw [List.find?_eq_none.mpr ?_]
      intro r hr
      simp only [Bool.and_eq_true, beq_iff_eq]
      exact fun hand => hnone r hr ⟨hand.1, hand.2⟩
  · cases h

/-- Grouped fixture for the pivot witness: 2015 has only Q1, 2016 only Q3. -/
def pivotFixtureGrouped : List KRow :=
  [{ jaar := 2015, kwartaal := "2015-Q1", alle_woningen := 3 },
   { jaar := 2016, kwartaal := "2016-Q3", alle_woningen := 4 }]

/-- Pivot output of the fixture: zero-filled cells and row totals. -/
def pivotFixtureOut : List PivotRow :=
  [{ jaar := 2015, q1 := 3, q2 := 0, q3 := 0, q4 := 0, totaal := 3 },
   { jaar := 2016, q1 := 0, q2 := 0, q3 := 4, q4 := 0, totaal := 4 }]

/-- C2 witness: the pivot claim applied to the concrete two-year fixture. -/
theorem C2_pivot_year_by_quarter_witness :
    (∃ pr ∈ pivotFixtureOut, pr.jaar = 2015) ∧
    (pivotFixtureOut.map (fun pr => pr.jaar)).Nodup :=
  ⟨((C2_pivot_year_by_quarter pivotFixtureGrouped pivotFixtureOut (by decide)).1 2015).mpr
    (by decide),
   (C2_pivot_year_by_quarter pivotFixtureGrouped pivotFixtureOut (by decide)).2.2.1⟩

theorem list_sum_eq_sum_range (l : List ℚ) :
    l.sum = ∑ j ∈ Finset.range l.length, l.getD j 0 := by
  induction l with
  | nil => simp
  | cons x t ih =>
    rw [List.sum_cons, List.length_cons, Finset.sum_range_succ']
    simp [List.getD_cons_succ, List.getD_cons_zero, ih, add_comm]

theorem list_drop_sum (l : List ℚ) : ∀ a : Nat,
    (l.drop a).sum = ∑ j ∈ Finset.Ico a l.length, l.getD j 0 := by
  induction l with
  | nil => intro a; simp
  | cons x t ih =>
    intro a
    cases a with
    | zero =>
      rw [List.drop_zero, list_sum_eq_sum_range, Finset.range_eq_Ico]
    | succ a =>
      rw [List.drop_succ_cons, ih a, List.length_cons,
        Finset.sum_Ico_eq_sum_range, Finset.sum_Ico_eq_sum_range]
      have hlen : t.length - a = t.length + 1 - (a + 1) := by omega
      rw [← hlen]
      apply Finset.sum_congr rfl
      intro k _
      have hidx : a + 1 + k = (a + k) + 1 := by omega
      rw [hidx, List.getD_cons_succ]

theorem getD_take_eq (l : List ℚ) (n j : Nat) (hj : j < n) :
    (l.take n).getD j 0 = l.getD j 0 := by
  by_cases hl : j < l.length
  · rw [List.getD_eq_getElem _ _ (by simp [List.length_take]; omega),
      List.getD_eq_getElem _ _ hl]
    exact List.getElem_take l
  · rw [List.getD_eq_default _ _ (by simp [List.length_take]; omega),
      List.getD_eq_default _ _ (by omega)]

theorem rollingMean_getD (w : Nat) (xs : List ℚ) (i : Nat) (h : i < xs.length) :
    (rollingMean w xs).getD i 0 = mean ((xs.take (i + 1)).drop (i + 1 - w)) := by
  unfold rollingMean
  have h1 : i < ((List.range xs.length).map
      (fun i => mean ((xs.take (i + 1)).drop (i + 1 - w)))).length := by
    simp [h]
  rw [List.getD_eq_getElem _ _ h1, List.getElem_map, List.getElem_range]

theorem slice_sum (xs : List ℚ) (i w : Nat) (h : i < xs.length) :
    ((xs.take (i + 1)).drop (i + 1 - w)).sum =
      ∑ j ∈ Finset.Icc (i + 1 - w) i, xs.getD j 0 := by
  rw [list_drop_sum]
  have hlen : (xs.take (i + 1)).length = i + 1 := by
    simp [List.length_take]
    omega
  rw [hlen, ← Nat.Ico_succ_right]
  apply Finset.sum_congr rfl
  intro j hj
  exact getD_take_eq xs (i + 1) j (Finset.mem_Ico.mp hj).2

theorem slice_length (xs : List ℚ) (i w : Nat) (h : i < xs.length) :
    ((xs.take (i + 1)).drop (i + 1 - w)).length = (i + 1) - (i + 1 - w) := by
  simp [List.length_drop, List.length_take]
  omega

/-- C1: the 12-point trailing rolling mean preserves length and index
alignment, the value at index i is the arithmetic mean of the window of
positions max(0, i-12+1)..i inclusive (early points average over the
shorter prefix instead of being null), a length-1 series is returned
unchanged, and at index 11 of a series of length at least 12 the value is
exactly the mean of the first 12 values. -/
theorem C1_rolling_average (xs : List ℚ) :
    (rollingMean 12 xs).length = xs.length ∧
    (∀ i, i < xs.length →
      (rollingMean 12 xs).getD i 0 =
        (∑ j ∈ Finset.Icc (i + 1 - 12) i, xs.getD j 0) /
          (((i + 1) - (i + 1 - 12) : ℕ) : ℚ)) ∧
    (∀ x : ℚ, rollingMean 12 [x] = [x]) ∧
    (12 ≤ xs.length →
      (rollingMean 12 xs).getD 11 0 = (xs.take 12).sum / 12) := by
  refine ⟨by simp [rollingMean], ?_, ?_, ?_⟩
  · intro i hi
    rw [rollingMean_getD 12 xs i hi]
    unfold mean
    rw [slice_sum xs i 12 hi, slice_length xs i 12 hi]
  · intro x
    norm_num [rollingMean, mean, List.range_succ]
  · intro hN
    rw [rollingMean_getD 12 xs 11 (by omega)]
    unfold mean
    have hdrop : ((xs.take (11 + 1)).drop (11 + 1 - 12)) = xs.take 12 := by
      norm_num
    rw [hdrop]
    have hlt : (xs.take 12).length = 12 := by
      simp [List.length_take]
      omega
    rw [hlt]
    norm_num

/-- Twelve-point series used by the C1 witness. -/
def q12 : List ℚ := [1, 2, 3, 4, 5, 6, 7, 8, 9, 10, 11, 12]

/-- C1 witness: the rolling-average claim applied to a concrete
12-point series and to a singleton series. -/
theorem C1_rolling_average_witness :
    (rollingMean 12 q12).length = q12.length ∧
    (rollingMean 12 q12).getD 0 0 =
      (∑ j ∈ Finset.Icc (0 + 1 - 12) 0, q12.getD j 0) /
        (((0 + 1) - (0 + 1 - 12) : ℕ) : ℚ) ∧
    rollingMean 12 [(7 : ℚ)] = [(7 : ℚ)] ∧
    (rollingMean 12 q12).getD 11 0 = (q12.take 12).sum / 12 :=
  ⟨(C1_rolling_average q12).1,
   (C1_rolling_average q12).2.1 0 (by decide),
   (C1_rolling_average q12).2.2.1 7,
   (C1_rolling_average q12).2.2.2 (by decide)⟩

end Statbel
